import Mathlib

/-!
Verification development for the Expense-bot WhatsApp webhook (`app.py`).

The Python program is a per-sender conversation state machine
(states `MAIN_MENU`, `AWAIT_CATEGORY`, `AWAIT_AMOUNT`, `AWAIT_NOTES`,
`NEXT_ACTION`) that walks a user through an add-expense flow and appends
rows to a spreadsheet ledger, plus a totals scan over the ledger.

This file shallowly embeds the program: the mutable module-level
dictionaries (`user_state`, `user_temp`, `user_seen_welcome`) and the
sheet become an explicit `Sys` record; the webhook body becomes the
function `handle`; `calculate_total` and `save_expense` are translated
directly.  Python exceptions (KeyError, uncaught ValueError) are made
explicit with `Except`.  Machine floats are modelled by `ℚ`.
-/

/-! ### Digits and number rendering -/

/-- Numeric value of a digit character (`ord(c) - ord('0')`). -/
def digitVal (c : Char) : ℕ := c.toNat - 48

/-- Value of a digit string, most significant first. -/
def digitsVal (l : List Char) : ℕ := l.foldl (fun a c => a * 10 + digitVal c) 0

/-- Decimal digit characters of `n`, most significant first. -/
def natDigs (n : ℕ) : List Char :=
  if h : n < 10 then [Char.ofNat (48 + n)]
  else natDigs (n / 10) ++ [Char.ofNat (48 + n % 10)]
decreasing_by simp_wf; omega

/-- Decimal rendering of a natural number. -/
def renderNat (n : ℕ) : String := String.mk (natDigs n)

/-- Decimal rendering of an integer. -/
def renderInt (i : ℤ) : String :=
  if i < 0 then "-" ++ renderNat i.natAbs else renderNat i.natAbs

/-- Stand-in for Python number-to-text conversion used when a numeric
value is spliced into a reply f-string.  The exact digits are immaterial
to every claim; what matters is that the output is built only from
digits, `-` and `/`. -/
def renderNum (q : ℚ) : String :=
  if q.den = 1 then renderInt q.num else renderInt q.num ++ "/" ++ renderNat q.den

/-! ### Python `float(str)` model

`parseAmount` models `float(message)` on the common grammar of Python
float literals: optional surrounding whitespace, optional sign, digits
with an optional fractional part, optional exponent.  `none` models a
`ValueError`. -/

/-- Python `str.strip()`: drop whitespace from both ends. -/
def pyStrip (s : String) : String :=
  String.mk (((s.data.dropWhile Char.isWhitespace).reverse.dropWhile
    Char.isWhitespace).reverse)

def parseAmount (s : String) : Option ℚ :=
  let cs := (pyStrip s).data
  let sg : ℚ × List Char :=
    match cs with
    | '+' :: r => (1, r)
    | '-' :: r => (-1, r)
    | r => (1, r)
  let ip := sg.2.takeWhile Char.isDigit
  let r1 := sg.2.dropWhile Char.isDigit
  let fr : List Char × List Char :=
    match r1 with
    | '.' :: r => (r.takeWhile Char.isDigit, r.dropWhile Char.isDigit)
    | r => ([], r)
  if ip.length + fr.1.length = 0 then none
  else
    let mant : ℚ := sg.1 * ((digitsVal (ip ++ fr.1) : ℚ) / (10 : ℚ) ^ fr.1.length)
    match fr.2 with
    | [] => some mant
    | c :: r =>
      if c = 'e' ∨ c = 'E' then
        let es : ℤ × List Char :=
          match r with
          | '+' :: t => (1, t)
          | '-' :: t => (-1, t)
          | t => (1, t)
        let ed := es.2.takeWhile Char.isDigit
        if ed.length = 0 ∨ (es.2.dropWhile Char.isDigit).length ≠ 0 then none
        else some (mant * (10 : ℚ) ^ (es.1 * (digitsVal ed : ℤ)))
      else none

/-! ### Datetimes

`DT` models a `datetime.datetime` value at second precision (the
webhook's claims are insensitive to microseconds). -/

structure DT where
  year : ℕ
  month : ℕ
  day : ℕ
  hour : ℕ
  minute : ℕ
  second : ℕ
deriving DecidableEq

/-- Leap-year rule of the proleptic Gregorian calendar (as in `datetime`). -/
def isLeap (y : ℕ) : Bool := y % 4 == 0 && (y % 100 != 0 || y % 400 == 0)

/-- Number of days in a month (`m` is 1-based; other values unreachable
behind the parser's bounds check). -/
def daysInMonth (y m : ℕ) : ℕ :=
  match m with
  | 1 => 31
  | 2 => if isLeap y then 29 else 28
  | 3 => 31
  | 4 => 30
  | 5 => 31
  | 6 => 30
  | 7 => 31
  | 8 => 31
  | 9 => 30
  | 10 => 31
  | 11 => 30
  | 12 => 31
  | _ => 0

/-- Days since 1970-01-01 of a civil date (standard days-from-civil
algorithm; used only on calendar-valid dates with `1 ≤ y`). -/
def daysFromCivil (y m d : ℕ) : ℤ :=
  let yy := if m ≤ 2 then y - 1 else y
  let era := yy / 400
  let yoe := yy - era * 400
  let doy := (153 * (if 2 < m then m - 3 else m + 9) + 2) / 5 + d - 1
  let doe := yoe * 365 + yoe / 4 - yoe / 100 + doy
  ((era : ℤ) * 146097 + (doe : ℤ)) - 719468

/-- Seconds since the epoch of a `DT`; datetime subtraction in the
source is modelled as subtraction of these absolute values. -/
def DT.toSec (t : DT) : ℤ :=
  daysFromCivil t.year t.month t.day * 86400
    + (t.hour : ℤ) * 3600 + (t.minute : ℤ) * 60 + (t.second : ℤ)

/-- `(now - row_time).days` in Python floors the exact difference over
whole days, also for negative differences. -/
def elapsedDays (now rowT : DT) : ℤ := Int.fdiv (now.toSec - rowT.toSec) 86400

/-- A plausible wall-clock reading: calendar-valid, with a four-digit
year — the range `datetime.now()` produces in practice. -/
def DT.Valid (t : DT) : Prop :=
  1000 ≤ t.year ∧ t.year ≤ 9999 ∧ 1 ≤ t.month ∧ t.month ≤ 12 ∧
  1 ≤ t.day ∧ t.day ≤ daysInMonth t.year t.month ∧
  t.hour ≤ 23 ∧ t.minute ≤ 59 ∧ t.second ≤ 59

instance (t : DT) : Decidable t.Valid := by
  unfold DT.Valid; infer_instance

/-- `datetime.strptime(s, "%Y-%m-%d %H:%M")`: four year digits, one or
two digits for month/day/hour/minute with the separators `-`, `-`,
space, `:`, the whole string consumed, and the field bounds checked by
the `datetime` constructor.  Unspecified fields (seconds) default to 0.
`none` models the `ValueError` that `strptime` raises. -/
def parseTimestamp (s : String) : Option DT :=
  let cs := s.data
  let yd := cs.takeWhile Char.isDigit
  let r1 := cs.dropWhile Char.isDigit
  if yd.length ≠ 4 then none else
  match r1 with
  | '-' :: r2 =>
    let md := r2.takeWhile Char.isDigit
    let r3 := r2.dropWhile Char.isDigit
    if md.length = 0 ∨ 2 < md.length then none else
    match r3 with
    | '-' :: r4 =>
      let dd := r4.takeWhile Char.isDigit
      let r5 := r4.dropWhile Char.isDigit
      if dd.length = 0 ∨ 2 < dd.length then none else
      match r5 with
      | ' ' :: r6 =>
        let hd := r6.takeWhile Char.isDigit
        let r7 := r6.dropWhile Char.isDigit
        if hd.length = 0 ∨ 2 < hd.length then none else
        match r7 with
        | ':' :: r8 =>
          let nd := r8.takeWhile Char.isDigit
          let r9 := r8.dropWhile Char.isDigit
          if nd.length = 0 ∨ 2 < nd.length then none else
          if r9.length ≠ 0 then none else
          let y := digitsVal yd
          let mo := digitsVal md
          let da := digitsVal dd
          let ho := digitsVal hd
          let mi := digitsVal nd
          if 1 ≤ y ∧ 1 ≤ mo ∧ mo ≤ 12 ∧ 1 ≤ da ∧ da ≤ daysInMonth y mo ∧
             ho ≤ 23 ∧ mi ≤ 59
          then some ⟨y, mo, da, ho, mi, 0⟩ else none
        | _ => none
      | _ => none
    | _ => none
  | _ => none

/-- Zero-padding to two characters, as `strftime` does for
`%m`, `%d`, `%H`, `%M`. -/
def pad2 (n : ℕ) : String := if n < 10 then "0" ++ renderNat n else renderNat n

/-- `datetime.now().strftime("%Y-%m-%d %H:%M")`. -/
def fmtTimestamp (t : DT) : String :=
  renderNat t.year ++ "-" ++ pad2 t.month ++ "-" ++ pad2 t.day ++ " "
    ++ pad2 t.hour ++ ":" ++ pad2 t.minute

/-- The `YYYY-MM-DD HH:MM` shape: exactly 16 characters, digits in the
date/time positions, the separators `-`, `-`, space, `:` — minute
precision, no seconds, no timezone. -/
def tsFormat (s : String) : Bool :=
  match s.data with
  | [y1, y2, y3, y4, s1, m1, m2, s2, d1, d2, s3, h1, h2, s4, n1, n2] =>
    y1.isDigit && y2.isDigit && y3.isDigit && y4.isDigit && s1 == '-' &&
    m1.isDigit && m2.isDigit && s2 == '-' && d1.isDigit && d2.isDigit &&
    s3 == ' ' && h1.isDigit && h2.isDigit && s4 == ':' &&
    n1.isDigit && n2.isDigit
  | _ => false

/-! ### Ledger rows and the totals scan -/

/-- One row as returned by `sheet.get_all_values()` (all cells are
strings; the source unpacks each row into these five fields). -/
structure RawRow where
  timestamp : String
  phone : String
  category : String
  amount : String
  notes : String
deriving DecidableEq

/-- Python exceptions that the webhook body can raise. -/
inductive PyErr where
  | keyError : PyErr
  | valueError : PyErr
deriving DecidableEq

/-- Loop body of `calculate_total`: `rows` remaining, `total` so far.
A row is skipped when the phone column differs from `sender`; a
malformed timestamp makes `strptime` raise (`.error`); with a
day-window, rows whose elapsed whole days reach the window are skipped;
a non-parsing amount is skipped via the `try/except ValueError`. -/
def calcLoop (sender : String) (days : Option ℕ) (now : DT) :
    List RawRow → ℚ → Except PyErr ℚ
  | [], total => .ok total
  | r :: rest, total =>
    if r.phone ≠ sender then calcLoop sender days now rest total
    else
      match parseTimestamp r.timestamp with
      | none => .error .valueError
      | some rt =>
        if (match days with
            | some n => decide ((n : ℤ) ≤ elapsedDays now rt)
            | none => false) then
          calcLoop sender days now rest total
        else
          match parseAmount r.amount with
          | none => calcLoop sender days now rest total
          | some a => calcLoop sender days now rest (total + a)

/-- `calculate_total(sender, days)` over the sheet rows (header already
excluded), with `now = datetime.now()`. -/
def calculate_total (sender : String) (days : Option ℕ) (now : DT)
    (rows : List RawRow) : Except PyErr ℚ :=
  calcLoop sender days now rows 0

/-- Spec-side qualification test: the row's sender matches, and when a
day-window `n` is given the elapsed full days since the row's timestamp
are strictly less than `n`. -/
def qualifies (sender : String) (days : Option ℕ) (now : DT) (r : RawRow) : Bool :=
  r.phone == sender &&
  match days, parseTimestamp r.timestamp with
  | some n, some rt => decide (elapsedDays now rt < (n : ℤ))
  | some _, none => false
  | none, _ => true

/-- Spec-side total: sum of the parsed amounts of exactly the
qualifying rows, skipping rows whose amount does not parse. -/
def specTotal (sender : String) (days : Option ℕ) (now : DT)
    (rows : List RawRow) : ℚ :=
  ((rows.filter (qualifies sender days now)).filterMap
    (fun r => parseAmount r.amount)).sum

/-! ### Conversation engine

`Sys` collects the module-level mutable state of `app.py`
(`user_state`, `user_temp`, `user_seen_welcome`) together with the rows
this process has appended to the sheet.  `Event` is one inbound webhook
request: the `From` and `Body` form fields, the wall clock, and the
sheet contents `get_all_values()[1:]` would return during this request
(the sheet is an external collaborator, so its read result is an input). -/

/-- The per-sender scratch record `user_temp[sender]`.  It is only ever
created whole as `{"category": ...}`, with `"amount"` added later, so a
category is always present and an amount optionally so. -/
structure Draft where
  category : String
  amount : Option ℚ
deriving DecidableEq

/-- One row as passed to `sheet.append_row([timestamp, sender,
category, amount, notes])`: the amount is the parsed float. -/
structure LedgerRow where
  timestamp : String
  sender : String
  category : String
  amount : ℚ
  notes : String
deriving DecidableEq

/-- The process-wide mutable state. -/
structure Sys where
  userState : String → Option String
  userTemp : String → Option Draft
  seenWelcome : String → Bool
  ledger : List LedgerRow

/-- One inbound request. -/
structure Event where
  sender : String
  body : String
  now : DT
  rows : List RawRow

/-- Fresh process: empty dictionaries, empty welcome set, no appends. -/
def init : Sys := ⟨fun _ => none, fun _ => none, fun _ => false, []⟩

/-- Pointwise dictionary update. -/
def upd {α : Type} (f : String → α) (k : String) (v : α) : String → α :=
  fun x => if x = k then v else f x

/-- Python `str.lower()` (ASCII case fold suffices for this program). -/
def lower (s : String) : String := String.mk (s.data.map Char.toLower)

/-- The one-time welcome banner line prepended by `main_menu(True)`. -/
def welcomeBanner : String := "Welcome to the Expense Tracker Bot"

/-- `main_menu(show_welcome)`. -/
def main_menu (show_welcome : Bool) : String :=
  (if show_welcome then welcomeBanner ++ "\n" else "") ++
  ("Please choose an option:\n" ++
   "1. Add Expense\n" ++
   "2. View Today Total\n" ++
   "3. View This Week Total\n" ++
   "4. View All-Time Total\n" ++
   "5. Exit")

/-- The `categories` dict: ordered key/label pairs. -/
def categories : List (String × String) :=
  [("1", "Accommodation"),
   ("2", "Meals & Catering"),
   ("3", "Transport (Flights, Car Rental, Local Taxis)"),
   ("4", "Venue Hire"),
   ("5", "Vendor Payments"),
   ("6", "Staff Hires (Temporary & Permanent)"),
   ("7", "Security & Logistics"),
   ("8", "Printing"),
   ("9", "Other")]

/-- Dict lookup `categories[message]` / membership `message in categories`. -/
def catLookup (k : String) : Option String :=
  (categories.find? (fun kv => kv.1 == k)).map (fun kv => kv.2)

/-- The labels of the Category Catalog. -/
def categoryLabels : List String := categories.map (fun kv => kv.2)

/-- `category_menu()`: loop over the dict, then the exit line. -/
def category_menu : String :=
  (categories.foldl (fun acc kv => acc ++ kv.1 ++ ". " ++ kv.2 ++ "\n")
    "Choose category:\n") ++ "5. Exit"

/-- Reply of the exit shortcut. -/
def goodbyeMsg : String := "Thank you for using Expense Tracker. Goodbye!"

/-- Reply when the amount does not parse. -/
def invalidAmountMsg : String :=
  "Invalid amount. Enter a number (or type \x27Exit\x27 to cancel):"

/-- Prompt for notes after a valid amount. -/
def notesPromptMsg : String :=
  "Enter a note or comment (or type \x27-\x27 for none, \x27Exit\x27 to cancel):"

/-- `save_expense(sender, category, amount, notes)` builds the row it
appends, stamping the current minute. -/
def save_expense (now : DT) (sender category : String) (amount : ℚ)
    (notes : String) : LedgerRow :=
  ⟨fmtTimestamp now, sender, category, amount, notes⟩

/-- `MAIN_MENU` branch of the webhook. -/
def stepMainMenu (sys : Sys) (sender message : String) (show_welcome : Bool)
    (now : DT) (rows : List RawRow) : Sys × Except PyErr String :=
  if message == "1" then
    ({sys with userState := upd sys.userState sender (some "AWAIT_CATEGORY")},
     .ok category_menu)
  else if message == "2" then
    match calculate_total sender (some 1) now rows with
    | .error e => (sys, .error e)
    | .ok total =>
      (sys, .ok ("Today\x27s total spending: " ++ renderNum total ++ "\n\n"
        ++ main_menu false))
  else if message == "3" then
    match calculate_total sender (some 7) now rows with
    | .error e => (sys, .error e)
    | .ok total =>
      (sys, .ok ("This week\x27s total spending: " ++ renderNum total ++ "\n\n"
        ++ main_menu false))
  else if message == "4" then
    match calculate_total sender none now rows with
    | .error e => (sys, .error e)
    | .ok total =>
      (sys, .ok ("All-time total spending: " ++ renderNum total ++ "\n\n"
        ++ main_menu false))
  else
    (sys, .ok (main_menu show_welcome))

/-- `AWAIT_CATEGORY` branch. -/
def stepAwaitCategory (sys : Sys) (sender message : String) :
    Sys × Except PyErr String :=
  match catLookup message with
  | none => (sys, .ok category_menu)
  | some label =>
    ({sys with
       userTemp := upd sys.userTemp sender (some ⟨label, none⟩)
       userState := upd sys.userState sender (some "AWAIT_AMOUNT")},
     .ok ("Enter the amount spent on " ++ label
       ++ " (or type \x27Exit\x27 to cancel):"))

/-- `AWAIT_AMOUNT` branch.  `user_temp[sender]["amount"] = amount`
raises `KeyError` when no draft exists. -/
def stepAwaitAmount (sys : Sys) (sender message : String) :
    Sys × Except PyErr String :=
  match parseAmount message with
  | none => (sys, .ok invalidAmountMsg)
  | some amount =>
    match sys.userTemp sender with
    | none => (sys, .error .keyError)
    | some d =>
      ({sys with
         userTemp := upd sys.userTemp sender (some ⟨d.category, some amount⟩)
         userState := upd sys.userState sender (some "AWAIT_NOTES")},
       .ok notesPromptMsg)

/-- `AWAIT_NOTES` branch: read the draft (KeyError when a key is
missing), append the completed row, clear the draft, move to
`NEXT_ACTION`. -/
def stepAwaitNotes (sys : Sys) (sender message : String) (now : DT) :
    Sys × Except PyErr String :=
  let notes := if message == "-" then "" else message
  match sys.userTemp sender with
  | none => (sys, .error .keyError)
  | some d =>
    match d.amount with
    | none => (sys, .error .keyError)
    | some amount =>
      ({sys with
         ledger := sys.ledger ++ [save_expense now sender d.category amount notes]
         userState := upd sys.userState sender (some "NEXT_ACTION")
         userTemp := upd sys.userTemp sender none},
       .ok ("Expense saved.\nYou spent " ++ renderNum amount ++ " on "
         ++ d.category ++ ".\n\n"
         ++ "What would you like to do next:\n"
         ++ "1. Add Another Expense\n"
         ++ "2. View Today Total\n"
         ++ "3. Main Menu\n"
         ++ "5. Exit"))

/-- `NEXT_ACTION` branch (its own exit test is dead code behind the
global exit check, but kept for faithfulness). -/
def stepNextAction (sys : Sys) (sender message : String) (now : DT)
    (rows : List RawRow) : Sys × Except PyErr String :=
  if message == "1" then
    ({sys with userState := upd sys.userState sender (some "AWAIT_CATEGORY")},
     .ok category_menu)
  else if message == "2" then
    match calculate_total sender (some 1) now rows with
    | .error e => (sys, .error e)
    | .ok total =>
      ({sys with userState := upd sys.userState sender (some "MAIN_MENU")},
       .ok ("Today\x27s total spending: " ++ renderNum total ++ "\n\n"
         ++ main_menu false))
  else if message == "3" then
    ({sys with userState := upd sys.userState sender (some "MAIN_MENU")},
     .ok (main_menu false))
  else if lower message == "5" || lower message == "exit" then
    ({sys with userState := upd sys.userState sender (some "MAIN_MENU")},
     .ok goodbyeMsg)
  else
    (sys, .ok ("Invalid choice. What would you like to do next?\n"
      ++ "1. Add Another Expense\n"
      ++ "2. View Today Total\n"
      ++ "3. Main Menu\n"
      ++ "5. Exit"))

/-- The `if state == ... / elif ... / else` chain of the webhook body:
dispatch on the (already initialized) state, falling back to a
`MAIN_MENU` reset on an unrecognized state. -/
def dispatch (sys : Sys) (sender message : String) (show_welcome : Bool)
    (state : String) (now : DT) (rows : List RawRow) :
    Sys × Except PyErr String :=
  if state == "MAIN_MENU" then
    stepMainMenu sys sender message show_welcome now rows
  else if state == "AWAIT_CATEGORY" then
    stepAwaitCategory sys sender message
  else if state == "AWAIT_AMOUNT" then
    stepAwaitAmount sys sender message
  else if state == "AWAIT_NOTES" then
    stepAwaitNotes sys sender message now
  else if state == "NEXT_ACTION" then
    stepNextAction sys sender message now rows
  else
    ({sys with userState := upd sys.userState sender (some "MAIN_MENU")},
     .ok (main_menu false))

/-- The body of `whatsapp_webhook`: strip the body, mark the sender as
welcomed, initialize the state entry, run the global exit check, then
dispatch on the state. -/
def handle (sys : Sys) (ev : Event) : Sys × Except PyErr String :=
  let sender := ev.sender
  let message := pyStrip ev.body
  let show_welcome := !sys.seenWelcome sender
  let sys1 : Sys := {sys with
    seenWelcome := fun a => if a = sender then true else sys.seenWelcome a}
  let state := (sys1.userState sender).getD "MAIN_MENU"
  let sys2 : Sys := {sys1 with userState := upd sys1.userState sender (some state)}
  if lower message == "5" || lower message == "exit" then
    ({sys2 with
       userState := upd sys2.userState sender (some "MAIN_MENU")
       userTemp := upd sys2.userTemp sender none},
     .ok goodbyeMsg)
  else
    dispatch sys2 sender message show_welcome state ev.now ev.rows

/-- Serve a sequence of requests from a fresh process, collecting each
request's outcome (reply text, or the exception it raised). -/
def run : Sys → List Event → Sys × List (Except PyErr String)
  | sys, [] => (sys, [])
  | sys, e :: rest =>
    let p := handle sys e
    let q := run p.1 rest
    (q.1, p.2 :: q.2)

/-- A process state the webhook can actually be in. -/
def Reachable (sys : Sys) : Prop := ∃ evs : List Event, (run init evs).1 = sys

/-! ### Invariants and banner containment -/

/-- Category labels actually selectable in `AWAIT_CATEGORY`: the label
of every catalog key that survives the global exit check (the key is
checked first, so `"5"` never reaches the category branch). -/
def selectableLabels : List String :=
  (categories.filter
    (fun kv => !(lower kv.1 == "5" || lower kv.1 == "exit"))).map
    (fun kv => kv.2)

/-- Claim C5's draft/state relation for one sender: a draft exists iff
the state is `AWAIT_AMOUNT` or `AWAIT_NOTES`, and from `AWAIT_NOTES` on
the draft also carries an amount (a category is always present by
construction of drafts). -/
def StateOK (sys : Sys) (a : String) : Prop :=
  ((sys.userTemp a).isSome ↔
    (sys.userState a = some "AWAIT_AMOUNT" ∨
     sys.userState a = some "AWAIT_NOTES")) ∧
  (sys.userState a = some "AWAIT_NOTES" →
    ∃ d, sys.userTemp a = some d ∧ d.amount.isSome)

/-- Global invariant of the conversation engine: the draft/state
relation per sender, the welcome flag agreeing with state presence, and
every draft category and every appended row category drawn from the
selectable labels. -/
def GoodSys (sys : Sys) : Prop :=
  (∀ a, StateOK sys a) ∧
  (∀ a, (sys.userState a).isSome ↔ sys.seenWelcome a = true) ∧
  (∀ a d, sys.userTemp a = some d → d.category ∈ selectableLabels) ∧
  (∀ row ∈ sys.ledger, row.category ∈ selectableLabels)

/-- Characters a `renderNum` output can contain. -/
def numChar (c : Char) : Bool := c.isDigit || c == '-' || c == '/'

/-- The reply text contains the welcome banner line as a substring. -/
def containsBanner (s : String) : Prop := welcomeBanner.data <:+: s.data

instance (s : String) : Decidable (containsBanner s) := by
  unfold containsBanner; infer_instance


/-! ## Theorems -/

theorem specTotal_nil (sender : String) (days : Option ℕ) (now : DT) :
    specTotal sender days now [] = 0 := rfl

theorem specTotal_cons (sender : String) (days : Option ℕ) (now : DT)
    (r : RawRow) (rest : List RawRow) :
    specTotal sender days now (r :: rest) =
      (if qualifies sender days now r then (parseAmount r.amount).getD 0 else 0)
        + specTotal sender days now rest := by
  by_cases hq : qualifies sender days now r
  · cases hpa : parseAmount r.amount with
    | none => simp [specTotal, List.filter_cons, hq, hpa]
    | some a => simp [specTotal, List.filter_cons, hq, hpa]
  · simp [specTotal, List.filter_cons, hq]

theorem specTotal_append (sender : String) (days : Option ℕ) (now : DT)
    (xs ys : List RawRow) :
    specTotal sender days now (xs ++ ys) =
      specTotal sender days now xs + specTotal sender days now ys := by
  simp [specTotal, List.filter_append, List.filterMap_append]

/-- The totals loop, on rows whose sender-matching timestamps all
parse, returns the accumulator plus the spec-side total. -/
theorem calcLoop_ok (sender : String) (days : Option ℕ) (now : DT)
    (rows : List RawRow) (acc : ℚ)
    (h : ∀ r ∈ rows, r.phone = sender → (parseTimestamp r.timestamp).isSome) :
    calcLoop sender days now rows acc =
      .ok (acc + specTotal sender days now rows) := by
  induction rows generalizing acc with
  | nil => simp [calcLoop, specTotal_nil]
  | cons r rest ih =>
    have hrest : ∀ x ∈ rest, x.phone = sender → (parseTimestamp x.timestamp).isSome :=
      fun x hx => h x (List.mem_cons_of_mem r hx)
    rw [specTotal_cons]
    by_cases hp : r.phone = sender
    · obtain ⟨rt, hrt⟩ := Option.isSome_iff_exists.mp (h r (List.mem_cons_self r rest) hp)
      cases days with
      | none =>
        cases hpa : parseAmount r.amount with
        | none =>
          simp [calcLoop, hp, hrt, hpa, ih _ hrest, qualifies]
        | some a =>
          simp [calcLoop, hp, hrt, hpa, ih _ hrest, qualifies, add_assoc]
      | some n =>
        by_cases hd : (n : ℤ) ≤ elapsedDays now rt
        · have hq : qualifies sender (some n) now r = false := by
            simp [qualifies, hrt, not_lt.mpr hd]
          simp [calcLoop, hp, hrt, hd, ih _ hrest, hq]
        · have hlt : elapsedDays now rt < (n : ℤ) := lt_of_not_le hd
          cases hpa : parseAmount r.amount with
          | none =>
            simp [calcLoop, hp, hrt, hpa, hd, ih _ hrest, qualifies]
          | some a =>
            have hq : qualifies sender (some n) now r = true := by
              simp [qualifies, hp, hrt, hlt]
            simp [calcLoop, hp, hrt, hpa, hd, ih _ hrest, hq, add_assoc]
    · have hq : qualifies sender days now r = false := by
        simp [qualifies, hp]
      simp [calcLoop, hp, ih _ hrest, hq]

/-! ### Per-branch behavior of the webhook -/

theorem stepMainMenu_ledger (sys : Sys) (sender message : String) (w : Bool)
    (now : DT) (rows : List RawRow) :
    (stepMainMenu sys sender message w now rows).1.ledger = sys.ledger := by
  unfold stepMainMenu
  split_ifs <;>
    first
    | rfl
    | (rcases calculate_total sender (some 1) now rows with e | t <;> rfl)
    | (rcases calculate_total sender (some 7) now rows with e | t <;> rfl)
    | (rcases calculate_total sender none now rows with e | t <;> rfl)

theorem stepAwaitCategory_ledger (sys : Sys) (sender message : String) :
    (stepAwaitCategory sys sender message).1.ledger = sys.ledger := by
  unfold stepAwaitCategory
  rcases catLookup message with _ | label <;> rfl

theorem stepAwaitAmount_ledger (sys : Sys) (sender message : String) :
    (stepAwaitAmount sys sender message).1.ledger = sys.ledger := by
  unfold stepAwaitAmount
  rcases parseAmount message with _ | a
  · rfl
  · rcases sys.userTemp sender with _ | d <;> rfl

theorem stepNextAction_ledger (sys : Sys) (sender message : String)
    (now : DT) (rows : List RawRow) :
    (stepNextAction sys sender message now rows).1.ledger = sys.ledger := by
  unfold stepNextAction
  split_ifs <;>
    first
    | rfl
    | (rcases calculate_total sender (some 1) now rows with e | t <;> rfl)

/-- C2: the exit shortcut, for every sender and every stored state
(the check runs before any per-state transition): state reset to
`MAIN_MENU`, draft discarded, goodbye reply. -/
theorem C2_exit_shortcut (sys : Sys) (ev : Event)
    (h : lower (pyStrip ev.body) = "5" ∨ lower (pyStrip ev.body) = "exit") :
    (handle sys ev).1.userState ev.sender = some "MAIN_MENU" ∧
    (handle sys ev).1.userTemp ev.sender = none ∧
    (handle sys ev).2 = .ok goodbyeMsg := by
  rcases h with h | h <;> simp [handle, upd, h]

/-- Witness for C2 at a concrete input: sender `A` in the middle of the
add-expense flow sends `" EXIT "`. -/
theorem C2_witness :
    (lower (pyStrip " EXIT ") = "5" ∨ lower (pyStrip " EXIT ") = "exit") ∧
    ((handle
        ⟨upd init.userState "A" (some "AWAIT_NOTES"),
         upd init.userTemp "A" (some ⟨"Printing", some 3⟩),
         init.seenWelcome, init.ledger⟩
        ⟨"A", " EXIT ", ⟨2024, 1, 1, 10, 0, 0⟩, []⟩).1.userState "A"
        = some "MAIN_MENU" ∧
     (handle
        ⟨upd init.userState "A" (some "AWAIT_NOTES"),
         upd init.userTemp "A" (some ⟨"Printing", some 3⟩),
         init.seenWelcome, init.ledger⟩
        ⟨"A", " EXIT ", ⟨2024, 1, 1, 10, 0, 0⟩, []⟩).1.userTemp "A" = none ∧
     (handle
        ⟨upd init.userState "A" (some "AWAIT_NOTES"),
         upd init.userTemp "A" (some ⟨"Printing", some 3⟩),
         init.seenWelcome, init.ledger⟩
        ⟨"A", " EXIT ", ⟨2024, 1, 1, 10, 0, 0⟩, []⟩).2 = .ok goodbyeMsg) :=
  ⟨Or.inr (by decide), C2_exit_shortcut _ _ (Or.inr (by decide))⟩

/-- C6: in `AWAIT_AMOUNT`, a non-exit input whose amount does not parse
is answered with the invalid-amount prompt; the state stays
`AWAIT_AMOUNT`, the drafts and the ledger are untouched, and no
exception escapes. -/
theorem C6_invalid_amount (sys : Sys) (ev : Event)
    (hst : sys.userState ev.sender = some "AWAIT_AMOUNT")
    (h5 : lower (pyStrip ev.body) ≠ "5")
    (hx : lower (pyStrip ev.body) ≠ "exit")
    (hpa : parseAmount (pyStrip ev.body) = none) :
    (handle sys ev).2 = .ok invalidAmountMsg ∧
    (handle sys ev).1.userState ev.sender = some "AWAIT_AMOUNT" ∧
    (handle sys ev).1.userTemp = sys.userTemp ∧
    (handle sys ev).1.ledger = sys.ledger := by
  simp [handle, dispatch, stepAwaitAmount, upd, hst, h5, hx, hpa]

/-- Witness for C6: sender `A` in `AWAIT_AMOUNT` sends `"abc"`. -/
theorem C6_witness :
    ((upd init.userState "A" (some "AWAIT_AMOUNT")) "A" = some "AWAIT_AMOUNT" ∧
     lower (pyStrip "abc") ≠ "5" ∧ lower (pyStrip "abc") ≠ "exit" ∧
     parseAmount (pyStrip "abc") = none) ∧
    ((handle
        ⟨upd init.userState "A" (some "AWAIT_AMOUNT"),
         upd init.userTemp "A" (some ⟨"Other", none⟩),
         init.seenWelcome, init.ledger⟩
        ⟨"A", "abc", ⟨2024, 1, 1, 10, 0, 0⟩, []⟩).2 = .ok invalidAmountMsg ∧
     (handle
        ⟨upd init.userState "A" (some "AWAIT_AMOUNT"),
         upd init.userTemp "A" (some ⟨"Other", none⟩),
         init.seenWelcome, init.ledger⟩
        ⟨"A", "abc", ⟨2024, 1, 1, 10, 0, 0⟩, []⟩).1.userState "A"
        = some "AWAIT_AMOUNT" ∧
     (handle
        ⟨upd init.userState "A" (some "AWAIT_AMOUNT"),
         upd init.userTemp "A" (some ⟨"Other", none⟩),
         init.seenWelcome, init.ledger⟩
        ⟨"A", "abc", ⟨2024, 1, 1, 10, 0, 0⟩, []⟩).1.userTemp
        = upd init.userTemp "A" (some ⟨"Other", none⟩) ∧
     (handle
        ⟨upd init.userState "A" (some "AWAIT_AMOUNT"),
         upd init.userTemp "A" (some ⟨"Other", none⟩),
         init.seenWelcome, init.ledger⟩
        ⟨"A", "abc", ⟨2024, 1, 1, 10, 0, 0⟩, []⟩).1.ledger = init.ledger) :=
  ⟨⟨by decide, by decide, by decide, by decide⟩,
   C6_invalid_amount _ _ (by decide) (by decide) (by decide) (by decide)⟩

/-- C9: an unrecognized stored state, on any non-exit input, falls to
the final `else`: reset to `MAIN_MENU` and reply with the main menu. -/
theorem C9_unknown_state_reset (sys : Sys) (ev : Event) (st : String)
    (hst : sys.userState ev.sender = some st)
    (h1 : st ≠ "MAIN_MENU") (h2 : st ≠ "AWAIT_CATEGORY")
    (h3 : st ≠ "AWAIT_AMOUNT") (h4 : st ≠ "AWAIT_NOTES")
    (h5 : st ≠ "NEXT_ACTION")
    (he5 : lower (pyStrip ev.body) ≠ "5")
    (hex : lower (pyStrip ev.body) ≠ "exit") :
    (handle sys ev).1.userState ev.sender = some "MAIN_MENU" ∧
    (handle sys ev).2 = .ok (main_menu false) := by
  simp [handle, dispatch, upd, hst, h1, h2, h3, h4, h5, he5, hex]

/-- Witness for C9: sender `A` with corrupted state `"WEIRD"` sends
`"hello"`. -/
theorem C9_witness :
    ((upd init.userState "A" (some "WEIRD")) "A" = some "WEIRD" ∧
     lower (pyStrip "hello") ≠ "5" ∧ lower (pyStrip "hello") ≠ "exit") ∧
    ((handle ⟨upd init.userState "A" (some "WEIRD"), init.userTemp,
        init.seenWelcome, init.ledger⟩
        ⟨"A", "hello", ⟨2024, 1, 1, 10, 0, 0⟩, []⟩).1.userState "A"
        = some "MAIN_MENU" ∧
     (handle ⟨upd init.userState "A" (some "WEIRD"), init.userTemp,
        init.seenWelcome, init.ledger⟩
        ⟨"A", "hello", ⟨2024, 1, 1, 10, 0, 0⟩, []⟩).2 = .ok (main_menu false)) :=
  ⟨⟨by decide, by decide, by decide⟩,
   C9_unknown_state_reset _ _ "WEIRD" (by decide) (by decide) (by decide)
     (by decide) (by decide) (by decide) (by decide) (by decide)⟩

/-- C1: handling the notes message (state `AWAIT_NOTES`, complete
draft, input not the global exit shortcut) appends exactly one row —
category and amount from the draft, notes equal to the input except
that `"-"` becomes the empty string — and no earlier state of the
add-expense flow ever appends. -/
theorem C1_notes_append :
    (∀ (sys : Sys) (ev : Event) (c : String) (a : ℚ),
      sys.userState ev.sender = some "AWAIT_NOTES" →
      sys.userTemp ev.sender = some ⟨c, some a⟩ →
      lower (pyStrip ev.body) ≠ "5" →
      lower (pyStrip ev.body) ≠ "exit" →
      (handle sys ev).1.ledger = sys.ledger ++
        [⟨fmtTimestamp ev.now, ev.sender, c, a,
          if pyStrip ev.body = "-" then "" else pyStrip ev.body⟩] ∧
      ∃ r, (handle sys ev).2 = .ok r) ∧
    (∀ (sys : Sys) (ev : Event) (st : String),
      sys.userState ev.sender = some st →
      (st = "MAIN_MENU" ∨ st = "AWAIT_CATEGORY" ∨ st = "AWAIT_AMOUNT") →
      (handle sys ev).1.ledger = sys.ledger) := by
  constructor
  · intro sys ev c a hst htemp h5 hx
    constructor
    · simp [handle, dispatch, stepAwaitNotes, save_expense, upd, hst, htemp, h5, hx]
    · simp [handle, dispatch, stepAwaitNotes, save_expense, upd, hst, htemp, h5, hx]
  · intro sys ev st hst hd
    by_cases h5 : lower (pyStrip ev.body) = "5"
    · simp [handle, upd, h5]
    · by_cases hx : lower (pyStrip ev.body) = "exit"
      · simp [handle, upd, hx]
      · rcases hd with h | h | h <;> subst h <;>
          simp [handle, dispatch, upd, hst, h5, hx, stepMainMenu_ledger,
            stepAwaitCategory_ledger, stepAwaitAmount_ledger]

/-- Witness for C1: sender `A` in `AWAIT_NOTES` with draft
`(Printing, 3)` sends `"team lunch"`. -/
theorem C1_witness :
    ((upd init.userState "A" (some "AWAIT_NOTES")) "A" = some "AWAIT_NOTES" ∧
     (upd init.userTemp "A" (some ⟨"Printing", some 3⟩)) "A"
       = some ⟨"Printing", some 3⟩ ∧
     lower (pyStrip "team lunch") ≠ "5" ∧
     lower (pyStrip "team lunch") ≠ "exit") ∧
    ((handle
        ⟨upd init.userState "A" (some "AWAIT_NOTES"),
         upd init.userTemp "A" (some ⟨"Printing", some 3⟩),
         init.seenWelcome, init.ledger⟩
        ⟨"A", "team lunch", ⟨2024, 1, 1, 10, 0, 0⟩, []⟩).1.ledger =
      init.ledger ++
        [⟨fmtTimestamp ⟨2024, 1, 1, 10, 0, 0⟩, "A", "Printing", 3,
          if pyStrip "team lunch" = "-" then "" else pyStrip "team lunch"⟩] ∧
     ∃ r,
      (handle
        ⟨upd init.userState "A" (some "AWAIT_NOTES"),
         upd init.userTemp "A" (some ⟨"Printing", some 3⟩),
         init.seenWelcome, init.ledger⟩
        ⟨"A", "team lunch", ⟨2024, 1, 1, 10, 0, 0⟩, []⟩).2 = .ok r) :=
  ⟨⟨by decide, by decide, by decide, by decide⟩,
   C1_notes_append.1 _ _ "Printing" 3 (by decide) (by decide)
     (by decide) (by decide)⟩

/-- C4: on rows whose sender-matching timestamps parse, the totals scan
returns exactly the sum of the amounts of the qualifying rows (sender
matches; elapsed full days strictly below the window when one is
given), skipping rows with non-parsing amounts, and `0` when no row
qualifies. -/
theorem C4_totals_algorithm (sender : String) (days : Option ℕ) (now : DT)
    (rows : List RawRow)
    (h : ∀ r ∈ rows, r.phone = sender → (parseTimestamp r.timestamp).isSome) :
    calculate_total sender days now rows = .ok (specTotal sender days now rows) ∧
    ((∀ r ∈ rows, qualifies sender days now r = false) →
      calculate_total sender days now rows = .ok 0) := by
  have hmain := calcLoop_ok sender days now rows 0 h
  rw [zero_add] at hmain
  refine ⟨hmain, fun hq => ?_⟩
  have hnil : rows.filter (qualifies sender days now) = [] :=
    List.filter_eq_nil_iff.mpr (fun a ha => by simp [hq a ha])
  unfold calculate_total
  rw [hmain]
  simp [specTotal, hnil]

/-- Witness for C4 on the spec's own test vector. -/
theorem C4_witness :
    (∀ r ∈ [RawRow.mk "2024-01-01 10:00" "U1" "Other" "10" "",
            RawRow.mk "2024-01-01 10:00" "U2" "Other" "5" ""],
      r.phone = "U1" → (parseTimestamp r.timestamp).isSome) ∧
    (calculate_total "U1" none ⟨2024, 1, 1, 12, 0, 0⟩
        [RawRow.mk "2024-01-01 10:00" "U1" "Other" "10" "",
         RawRow.mk "2024-01-01 10:00" "U2" "Other" "5" ""]
      = .ok (specTotal "U1" none ⟨2024, 1, 1, 12, 0, 0⟩
        [RawRow.mk "2024-01-01 10:00" "U1" "Other" "10" "",
         RawRow.mk "2024-01-01 10:00" "U2" "Other" "5" ""]) ∧
     ((∀ r ∈ [RawRow.mk "2024-01-01 10:00" "U1" "Other" "10" "",
              RawRow.mk "2024-01-01 10:00" "U2" "Other" "5" ""],
        qualifies "U1" none ⟨2024, 1, 1, 12, 0, 0⟩ r = false) →
      calculate_total "U1" none ⟨2024, 1, 1, 12, 0, 0⟩
        [RawRow.mk "2024-01-01 10:00" "U1" "Other" "10" "",
         RawRow.mk "2024-01-01 10:00" "U2" "Other" "5" ""] = .ok 0)) :=
  ⟨by decide, C4_totals_algorithm "U1" none ⟨2024, 1, 1, 12, 0, 0⟩ _ (by decide)⟩

/-- C7: a row whose amount does not parse is excluded from the total,
the scan continues over the remaining rows, and no error is raised. -/
theorem C7_bad_amount_skipped (sender : String) (days : Option ℕ) (now : DT)
    (rows1 rows2 : List RawRow) (r : RawRow)
    (hbad : parseAmount r.amount = none)
    (h : ∀ x ∈ rows1 ++ r :: rows2, x.phone = sender →
      (parseTimestamp x.timestamp).isSome) :
    calculate_total sender days now (rows1 ++ r :: rows2)
      = calculate_total sender days now (rows1 ++ rows2) ∧
    ∃ t, calculate_total sender days now (rows1 ++ r :: rows2) = .ok t := by
  have h2 : ∀ x ∈ rows1 ++ rows2, x.phone = sender →
      (parseTimestamp x.timestamp).isSome := by
    intro x hx
    refine h x ?_
    simp only [List.mem_append, List.mem_cons] at hx ⊢
    tauto
  have e1 := calcLoop_ok sender days now (rows1 ++ r :: rows2) 0 h
  have e2 := calcLoop_ok sender days now (rows1 ++ rows2) 0 h2
  have hs : specTotal sender days now (rows1 ++ r :: rows2)
      = specTotal sender days now (rows1 ++ rows2) := by
    rw [specTotal_append, specTotal_append, specTotal_cons]
    simp [hbad]
  refine ⟨?_, ⟨_, e1⟩⟩
  unfold calculate_total
  rw [e1, e2, hs]

/-- Witness for C7: a `"N/A"` amount row among good rows. -/
theorem C7_witness :
    (parseAmount (RawRow.mk "2024-01-01 10:00" "U1" "Other" "N/A" "").amount
       = none ∧
     (∀ x ∈ ([] : List RawRow) ++
        RawRow.mk "2024-01-01 10:00" "U1" "Other" "N/A" "" ::
          [RawRow.mk "2024-01-01 10:00" "U1" "Other" "5" ""],
       x.phone = "U1" → (parseTimestamp x.timestamp).isSome)) ∧
    (calculate_total "U1" none ⟨2024, 1, 1, 12, 0, 0⟩
        (([] : List RawRow) ++
          RawRow.mk "2024-01-01 10:00" "U1" "Other" "N/A" "" ::
            [RawRow.mk "2024-01-01 10:00" "U1" "Other" "5" ""])
      = calculate_total "U1" none ⟨2024, 1, 1, 12, 0, 0⟩
          (([] : List RawRow) ++
            [RawRow.mk "2024-01-01 10:00" "U1" "Other" "5" ""]) ∧
     ∃ t, calculate_total "U1" none ⟨2024, 1, 1, 12, 0, 0⟩
        (([] : List RawRow) ++
          RawRow.mk "2024-01-01 10:00" "U1" "Other" "N/A" "" ::
            [RawRow.mk "2024-01-01 10:00" "U1" "Other" "5" ""]) = .ok t) :=
  ⟨⟨by decide, by decide⟩,
   C7_bad_amount_skipped "U1" none ⟨2024, 1, 1, 12, 0, 0⟩ [] _ _
     (by decide) (by decide)⟩

/-! ### Shape of `strftime` output -/

theorem natDigs_lt (n : ℕ) (h : n < 10) : natDigs n = [Char.ofNat (48 + n)] := by
  rw [natDigs]; simp [h]

theorem natDigs_ge (n : ℕ) (h : ¬n < 10) :
    natDigs n = natDigs (n / 10) ++ [Char.ofNat (48 + n % 10)] := by
  rw [natDigs]; simp [h]

theorem digitChar_isDigit (m : ℕ) (h : m < 10) :
    (Char.ofNat (48 + m)).isDigit = true := by
  interval_cases m <;> decide

theorem natDigs_len2 (n : ℕ) (h1 : 10 ≤ n) (h2 : n < 100) :
    natDigs n = [Char.ofNat (48 + n / 10), Char.ofNat (48 + n % 10)] := by
  rw [natDigs_ge n (by omega), natDigs_lt (n / 10) (by omega)]
  rfl

theorem natDigs_len4 (n : ℕ) (h1 : 1000 ≤ n) (h2 : n ≤ 9999) :
    natDigs n = [Char.ofNat (48 + n / 1000), Char.ofNat (48 + n / 100 % 10),
      Char.ofNat (48 + n / 10 % 10), Char.ofNat (48 + n % 10)] := by
  rw [natDigs_ge n (by omega), natDigs_ge (n / 10) (by omega),
    natDigs_ge (n / 10 / 10) (by omega), natDigs_lt (n / 10 / 10 / 10) (by omega)]
  simp [Nat.div_div_eq_div_mul]

theorem pad2_shape (n : ℕ) (h : n ≤ 99) :
    ∃ a b, (pad2 n).data = [a, b] ∧ a.isDigit = true ∧ b.isDigit = true := by
  by_cases h10 : n < 10
  · refine ⟨'0', Char.ofNat (48 + n), ?_, rfl, digitChar_isDigit n h10⟩
    simp [pad2, h10, renderNat, natDigs_lt n h10]
  · refine ⟨Char.ofNat (48 + n / 10), Char.ofNat (48 + n % 10), ?_,
      digitChar_isDigit _ (by omega), digitChar_isDigit _ (by omega)⟩
    simp [pad2, h10, renderNat, natDigs_len2 n (by omega) (by omega)]

theorem daysInMonth_le (y m : ℕ) : daysInMonth y m ≤ 31 := by
  unfold daysInMonth
  split <;> first | omega | (split_ifs <;> omega)

theorem tsFormat_of_shape (y1 y2 y3 y4 m1 m2 d1 d2 h1 h2 n1 n2 : Char)
    (hy1 : y1.isDigit = true) (hy2 : y2.isDigit = true)
    (hy3 : y3.isDigit = true) (hy4 : y4.isDigit = true)
    (hm1 : m1.isDigit = true) (hm2 : m2.isDigit = true)
    (hd1 : d1.isDigit = true) (hd2 : d2.isDigit = true)
    (hh1 : h1.isDigit = true) (hh2 : h2.isDigit = true)
    (hn1 : n1.isDigit = true) (hn2 : n2.isDigit = true) :
    tsFormat ⟨[y1, y2, y3, y4, '-', m1, m2, '-', d1, d2, ' ',
      h1, h2, ':', n1, n2]⟩ = true := by
  simp [tsFormat, hy1, hy2, hy3, hy4, hm1, hm2, hd1, hd2, hh1, hh2, hn1, hn2]

/-- On any plausible clock value, `strftime("%Y-%m-%d %H:%M")` produces
the `YYYY-MM-DD HH:MM` shape. -/
theorem tsFormat_fmtTimestamp (t : DT) (h : t.Valid) :
    tsFormat (fmtTimestamp t) = true := by
  obtain ⟨hy1, hy2, hm1b, hm2b, hd1b, hd2b, hhb, hminb, hsb⟩ := h
  obtain ⟨a1, a2, hma, ha1, ha2⟩ := pad2_shape t.month (by omega)
  obtain ⟨b1, b2, hdb, hb1, hb2⟩ := pad2_shape t.day
    (le_trans hd2b (le_trans (daysInMonth_le t.year t.month) (by omega)))
  obtain ⟨c1, c2, hhc, hc1, hc2⟩ := pad2_shape t.hour (by omega)
  obtain ⟨e1, e2, hne, he1, he2⟩ := pad2_shape t.minute (by omega)
  have hy := natDigs_len4 t.year hy1 hy2
  have hshape : (fmtTimestamp t).data =
      [Char.ofNat (48 + t.year / 1000), Char.ofNat (48 + t.year / 100 % 10),
       Char.ofNat (48 + t.year / 10 % 10), Char.ofNat (48 + t.year % 10),
       '-', a1, a2, '-', b1, b2, ' ', c1, c2, ':', e1, e2] := by
    simp [fmtTimestamp, renderNat, hy, hma, hdb, hhc, hne]
  rw [String.ext hshape]
  exact tsFormat_of_shape _ _ _ _ _ _ _ _ _ _ _ _
    (digitChar_isDigit _ (by omega)) (digitChar_isDigit _ (by omega))
    (digitChar_isDigit _ (by omega)) (digitChar_isDigit _ (by omega))
    ha1 ha2 hb1 hb2 hc1 hc2 he1 he2

/-! ### Frame and step lemmas for `handle` -/

theorem stepMainMenu_frame (sys : Sys) (sender message : String) (w : Bool)
    (now : DT) (rows : List RawRow) (a : String) (ha : a ≠ sender) :
    (stepMainMenu sys sender message w now rows).1.userState a
      = sys.userState a ∧
    (stepMainMenu sys sender message w now rows).1.userTemp a
      = sys.userTemp a ∧
    (stepMainMenu sys sender message w now rows).1.seenWelcome
      = sys.seenWelcome := by
  unfold stepMainMenu
  refine ⟨?_, ?_, ?_⟩ <;>
    (split_ifs <;> (try split) <;> simp [upd, ha])

theorem stepAwaitCategory_frame (sys : Sys) (sender message : String)
    (a : String) (ha : a ≠ sender) :
    (stepAwaitCategory sys sender message).1.userState a = sys.userState a ∧
    (stepAwaitCategory sys sender message).1.userTemp a = sys.userTemp a ∧
    (stepAwaitCategory sys sender message).1.seenWelcome = sys.seenWelcome := by
  unfold stepAwaitCategory
  refine ⟨?_, ?_, ?_⟩ <;> (split <;> simp [upd, ha])

theorem stepAwaitAmount_frame (sys : Sys) (sender message : String)
    (a : String) (ha : a ≠ sender) :
    (stepAwaitAmount sys sender message).1.userState a = sys.userState a ∧
    (stepAwaitAmount sys sender message).1.userTemp a = sys.userTemp a ∧
    (stepAwaitAmount sys sender message).1.seenWelcome = sys.seenWelcome := by
  unfold stepAwaitAmount
  refine ⟨?_, ?_, ?_⟩ <;> (split <;> (try split) <;> simp [upd, ha])

theorem stepAwaitNotes_frame (sys : Sys) (sender message : String) (now : DT)
    (a : String) (ha : a ≠ sender) :
    (stepAwaitNotes sys sender message now).1.userState a = sys.userState a ∧
    (stepAwaitNotes sys sender message now).1.userTemp a = sys.userTemp a ∧
    (stepAwaitNotes sys sender message now).1.seenWelcome = sys.seenWelcome := by
  unfold stepAwaitNotes
  refine ⟨?_, ?_, ?_⟩ <;>
    (split <;> (try split) <;> (try split) <;> simp [upd, ha])

theorem stepNextAction_frame (sys : Sys) (sender message : String) (now : DT)
    (rows : List RawRow) (a : String) (ha : a ≠ sender) :
    (stepNextAction sys sender message now rows).1.userState a
      = sys.userState a ∧
    (stepNextAction sys sender message now rows).1.userTemp a
      = sys.userTemp a ∧
    (stepNextAction sys sender message now rows).1.seenWelcome
      = sys.seenWelcome := by
  unfold stepNextAction
  refine ⟨?_, ?_, ?_⟩ <;>
    (split_ifs <;> (try split) <;> simp [upd, ha])

theorem dispatch_frame (sys : Sys) (sender message : String) (w : Bool)
    (state : String) (now : DT) (rows : List RawRow) (a : String)
    (ha : a ≠ sender) :
    (dispatch sys sender message w state now rows).1.userState a
      = sys.userState a ∧
    (dispatch sys sender message w state now rows).1.userTemp a
      = sys.userTemp a ∧
    (dispatch sys sender message w state now rows).1.seenWelcome
      = sys.seenWelcome := by
  unfold dispatch
  split_ifs with h1 h2 h3 h4 h5
  · exact stepMainMenu_frame sys sender message w now rows a ha
  · exact stepAwaitCategory_frame sys sender message a ha
  · exact stepAwaitAmount_frame sys sender message a ha
  · exact stepAwaitNotes_frame sys sender message now a ha
  · exact stepNextAction_frame sys sender message now rows a ha
  · simp [upd, ha]

/-- `handle` never touches another sender's entries. -/
theorem handle_frame (sys : Sys) (ev : Event) (a : String)
    (ha : a ≠ ev.sender) :
    (handle sys ev).1.userState a = sys.userState a ∧
    (handle sys ev).1.userTemp a = sys.userTemp a ∧
    (handle sys ev).1.seenWelcome a = sys.seenWelcome a := by
  unfold handle
  dsimp only
  split_ifs with hexit
  · simp [upd, ha]
  · have := dispatch_frame
      ⟨upd sys.userState ev.sender
        (some ((sys.userState ev.sender).getD "MAIN_MENU")),
       sys.userTemp,
       fun b => if b = ev.sender then true else sys.seenWelcome b,
       sys.ledger⟩
      ev.sender (pyStrip ev.body) (!sys.seenWelcome ev.sender)
      ((sys.userState ev.sender).getD "MAIN_MENU") ev.now ev.rows a ha
    simp only [upd] at this ⊢
    rcases this with ⟨h1, h2, h3⟩
    refine ⟨?_, ?_, ?_⟩
    · rw [h1]; simp [ha]
    · rw [h2]
    · rw [h3]; simp [ha]


/-! ### Preservation of the global invariant -/

theorem mem_selectable_of_mem_categories :
    ∀ kv ∈ categories, lower kv.1 ≠ "5" → kv.2 ∈ selectableLabels := by decide

/-- A category chosen through the menu by a non-exit key is one of the
selectable labels. -/
theorem catLookup_selectable (k label : String) (h5 : lower k ≠ "5")
    (h : catLookup k = some label) : label ∈ selectableLabels := by
  unfold catLookup at h
  cases hf : categories.find? (fun kv => kv.1 == k) with
  | none => rw [hf] at h; simp at h
  | some kv =>
    rw [hf] at h
    simp at h
    have hmem := List.mem_of_find?_eq_some hf
    have hpred := List.find?_some hf
    rw [beq_iff_eq] at hpred
    have hk5 : lower kv.1 ≠ "5" := by rw [hpred]; exact h5
    have := mem_selectable_of_mem_categories kv hmem hk5
    rw [← h]
    exact this

/-- Marking the sender welcomed and initializing its state entry
preserves the invariant. -/
theorem GoodSys_sys2 (sys : Sys) (sender : String) (h : GoodSys sys) :
    GoodSys ⟨upd sys.userState sender
        (some ((sys.userState sender).getD "MAIN_MENU")),
      sys.userTemp, fun b => if b = sender then true else sys.seenWelcome b,
      sys.ledger⟩ := by
  obtain ⟨hok, hseen, hcat, hled⟩ := h
  refine ⟨?_, ?_, fun a d hd => hcat a d hd, hled⟩
  · intro a
    by_cases ha : a = sender
    · subst ha
      obtain ⟨hiff, hnotes⟩ := hok a
      cases hs : sys.userState a with
      | none =>
        have htn : sys.userTemp a = none := by
          cases ht : sys.userTemp a with
          | none => rfl
          | some d =>
            have := hiff.mp (by rw [ht]; rfl)
            rw [hs] at this
            rcases this with h | h <;> exact absurd h (by simp)
        constructor
        · simp [StateOK, upd, hs, htn]
        · simp [StateOK, upd, hs]
      | some v =>
        constructor
        · simpa [StateOK, upd, hs] using hiff
        · simpa [StateOK, upd, hs] using hnotes
    · obtain ⟨hiff, hnotes⟩ := hok a
      constructor
      · simpa [StateOK, upd, ha] using hiff
      · simpa [StateOK, upd, ha] using hnotes
  · intro a
    by_cases ha : a = sender
    · subst ha; simp [upd]
    · simpa [upd, ha] using hseen a

/-- `GoodSys` only depends on the pointwise content of the maps. -/
theorem GoodSys_congr (sys sys' : Sys)
    (hS : ∀ a, sys'.userState a = sys.userState a)
    (hT : ∀ a, sys'.userTemp a = sys.userTemp a)
    (hW : ∀ a, sys'.seenWelcome a = sys.seenWelcome a)
    (hL : sys'.ledger = sys.ledger) (h : GoodSys sys) : GoodSys sys' := by
  obtain ⟨hok, hseen, hcat, hled⟩ := h
  refine ⟨fun a => ?_, fun a => ?_, fun a d hd => ?_, ?_⟩
  · obtain ⟨hiff, hnotes⟩ := hok a
    constructor
    · rw [hS, hT]; exact hiff
    · rw [hS, hT]; exact hnotes
  · rw [hS, hW]; exact hseen a
  · exact hcat a d (by rw [← hT]; exact hd)
  · rw [hL]; exact hled

/-- Setting one sender's state and draft preserves the invariant when
the new pair satisfies the per-sender relation and any new draft has a
selectable category. -/
theorem GoodSys_set (sys : Sys) (sender st' : String) (tmp' : Option Draft)
    (h : GoodSys sys) (hseen : sys.seenWelcome sender = true)
    (hok : tmp'.isSome ↔ (st' = "AWAIT_AMOUNT" ∨ st' = "AWAIT_NOTES"))
    (hnotes : st' = "AWAIT_NOTES" → ∃ d, tmp' = some d ∧ d.amount.isSome)
    (hcat' : ∀ d, tmp' = some d → d.category ∈ selectableLabels) :
    GoodSys {sys with userState := upd sys.userState sender (some st')
                      userTemp := upd sys.userTemp sender tmp'} := by
  obtain ⟨hokk, hseenn, hcat, hled⟩ := h
  refine ⟨fun a => ?_, fun a => ?_, fun a d hd => ?_, hled⟩
  · by_cases ha : a = sender
    · subst ha
      constructor
      · simpa [StateOK, upd] using hok
      · simpa [StateOK, upd] using hnotes
    · obtain ⟨hiff, hn⟩ := hokk a
      constructor
      · simpa [StateOK, upd, ha] using hiff
      · simpa [StateOK, upd, ha] using hn
  · by_cases ha : a = sender
    · subst ha; simp [upd, hseen]
    · simpa [upd, ha] using hseenn a
  · by_cases ha : a = sender
    · subst ha
      simp only [upd, if_pos rfl] at hd
      exact hcat' d hd
    · simp only [upd, if_neg ha] at hd
      exact hcat a d hd

/-- Appending a row with a selectable category preserves the invariant. -/
theorem GoodSys_append (sys : Sys) (row : LedgerRow) (h : GoodSys sys)
    (hc : row.category ∈ selectableLabels) :
    GoodSys {sys with ledger := sys.ledger ++ [row]} := by
  obtain ⟨hok, hseen, hcat, hled⟩ := h
  refine ⟨hok, hseen, hcat, ?_⟩
  intro r hr
  rcases List.mem_append.mp hr with hr | hr
  · exact hled r hr
  · rw [List.mem_singleton.mp hr]; exact hc

theorem temp_none_of_state (sys : Sys) (a : String) (h : GoodSys sys)
    (hAA : sys.userState a ≠ some "AWAIT_AMOUNT")
    (hAN : sys.userState a ≠ some "AWAIT_NOTES") : sys.userTemp a = none := by
  obtain ⟨hok, _, _, _⟩ := h
  obtain ⟨hiff, _⟩ := hok a
  cases ht : sys.userTemp a with
  | none => rfl
  | some d =>
    rcases hiff.mp (by rw [ht]; rfl) with hh | hh
    · exact absurd hh hAA
    · exact absurd hh hAN

/-- Setting one sender's state to a non-draft state, leaving its
(absent) draft alone, preserves the invariant. -/
theorem GoodSys_setState (sys : Sys) (sender st' : String) (h : GoodSys sys)
    (hseen : sys.seenWelcome sender = true)
    (htn : sys.userTemp sender = none)
    (hnot : ¬(st' = "AWAIT_AMOUNT" ∨ st' = "AWAIT_NOTES")) :
    GoodSys {sys with userState := upd sys.userState sender (some st')} := by
  have hset := GoodSys_set sys sender st' none h hseen
    (by simp [hnot]) (fun hh => absurd (Or.inr hh) hnot) (by simp)
  refine GoodSys_congr
    {sys with userState := upd sys.userState sender (some st')
              userTemp := upd sys.userTemp sender none} _
    (fun a => rfl) (fun a => ?_) (fun a => rfl) rfl hset
  by_cases ha : a = sender
  · subst ha; simp [upd, htn]
  · simp [upd, ha]

theorem stepMainMenu_good (sys : Sys) (sender message : String) (w : Bool)
    (now : DT) (rows : List RawRow) (h : GoodSys sys)
    (hseen : sys.seenWelcome sender = true)
    (hstate : sys.userState sender = some "MAIN_MENU") :
    GoodSys (stepMainMenu sys sender message w now rows).1 := by
  have htn : sys.userTemp sender = none :=
    temp_none_of_state sys sender h (by rw [hstate]; simp) (by rw [hstate]; simp)
  unfold stepMainMenu
  split_ifs with h1 h2 h3 h4
  · exact GoodSys_setState sys sender "AWAIT_CATEGORY" h hseen htn (by simp)
  · cases hq : calculate_total sender (some 1) now rows with
    | error e => exact h
    | ok t => exact h
  · cases hq : calculate_total sender (some 7) now rows with
    | error e => exact h
    | ok t => exact h
  · cases hq : calculate_total sender none now rows with
    | error e => exact h
    | ok t => exact h
  · exact h

theorem stepAwaitCategory_good (sys : Sys) (sender message : String)
    (h : GoodSys sys) (hseen : sys.seenWelcome sender = true)
    (h5 : lower message ≠ "5") :
    GoodSys (stepAwaitCategory sys sender message).1 := by
  unfold stepAwaitCategory
  cases hc : catLookup message with
  | none => exact h
  | some label =>
    refine GoodSys_set sys sender "AWAIT_AMOUNT" (some ⟨label, none⟩) h hseen
      (by simp) (by simp) ?_
    intro d hd
    cases Option.some.inj hd
    exact catLookup_selectable message label h5 hc

theorem stepAwaitAmount_good (sys : Sys) (sender message : String)
    (h : GoodSys sys) (hseen : sys.seenWelcome sender = true) :
    GoodSys (stepAwaitAmount sys sender message).1 := by
  unfold stepAwaitAmount
  cases hp : parseAmount message with
  | none => exact h
  | some amount =>
    cases ht : sys.userTemp sender with
    | none => exact h
    | some d =>
      refine GoodSys_set sys sender "AWAIT_NOTES" (some ⟨d.category, some amount⟩)
        h hseen (by simp) (fun _ => ⟨⟨d.category, some amount⟩, rfl, rfl⟩) ?_
      intro d' hd'
      cases Option.some.inj hd'
      exact h.2.2.1 sender d ht

theorem stepAwaitNotes_good (sys : Sys) (sender message : String) (now : DT)
    (h : GoodSys sys) (hseen : sys.seenWelcome sender = true) :
    GoodSys (stepAwaitNotes sys sender message now).1 := by
  unfold stepAwaitNotes
  dsimp only
  split
  · exact h
  · rename_i d ht
    split
    · exact h
    · rename_i amount ha
      have hcat := h.2.2.1 sender d ht
      have hl := GoodSys_append sys
        (save_expense now sender d.category amount
          (if message == "-" then "" else message)) h
        (by simpa [save_expense] using hcat)
      exact GoodSys_set _ sender "NEXT_ACTION" none hl hseen
        (by simp) (by simp) (by simp)

theorem stepNextAction_good (sys : Sys) (sender message : String) (now : DT)
    (rows : List RawRow) (h : GoodSys sys)
    (hseen : sys.seenWelcome sender = true)
    (hstate : sys.userState sender = some "NEXT_ACTION") :
    GoodSys (stepNextAction sys sender message now rows).1 := by
  have htn : sys.userTemp sender = none :=
    temp_none_of_state sys sender h (by rw [hstate]; simp) (by rw [hstate]; simp)
  unfold stepNextAction
  split_ifs with h1 h2 h3 h4
  · exact GoodSys_setState sys sender "AWAIT_CATEGORY" h hseen htn (by simp)
  · split
    · exact h
    · exact GoodSys_setState sys sender "MAIN_MENU" h hseen htn (by simp)
  · exact GoodSys_setState sys sender "MAIN_MENU" h hseen htn (by simp)
  · exact GoodSys_setState sys sender "MAIN_MENU" h hseen htn (by simp)
  · exact h

/-- `handle` written without its intermediate lets. -/
theorem handle_unfold (sys : Sys) (ev : Event) :
    handle sys ev =
      (if lower (pyStrip ev.body) == "5" || lower (pyStrip ev.body) == "exit"
       then
        (⟨upd (upd sys.userState ev.sender
            (some ((sys.userState ev.sender).getD "MAIN_MENU")))
            ev.sender (some "MAIN_MENU"),
          upd sys.userTemp ev.sender none,
          fun b => if b = ev.sender then true else sys.seenWelcome b,
          sys.ledger⟩,
         .ok goodbyeMsg)
       else
        dispatch
          ⟨upd sys.userState ev.sender
            (some ((sys.userState ev.sender).getD "MAIN_MENU")),
           sys.userTemp,
           fun b => if b = ev.sender then true else sys.seenWelcome b,
           sys.ledger⟩
          ev.sender (pyStrip ev.body) (!sys.seenWelcome ev.sender)
          ((sys.userState ev.sender).getD "MAIN_MENU") ev.now ev.rows) := rfl

/-- Every webhook invocation preserves the global invariant — also
when it raises, since Python's module-level mutations survive the
exception. -/
theorem GoodSys_handle (sys : Sys) (ev : Event) (h : GoodSys sys) :
    GoodSys (handle sys ev).1 := by
  have h2 := GoodSys_sys2 sys ev.sender h
  have hseen2 : (⟨upd sys.userState ev.sender
      (some ((sys.userState ev.sender).getD "MAIN_MENU")),
      sys.userTemp, fun b => if b = ev.sender then true else sys.seenWelcome b,
      sys.ledger⟩ : Sys).seenWelcome ev.sender = true := by simp
  rw [handle_unfold]
  split_ifs with hexit
  · exact GoodSys_set _ ev.sender "MAIN_MENU" none h2 hseen2
      (by simp) (by simp) (by simp)
  · have hexit' : ¬(lower (pyStrip ev.body) = "5") ∧
        ¬(lower (pyStrip ev.body) = "exit") := by
      constructor <;> intro hh <;> exact hexit (by simp [hh])
    unfold dispatch
    split_ifs with hm hc haa hn hx
    · exact stepMainMenu_good _ _ _ _ _ _ h2 hseen2 (by simp [upd, beq_iff_eq.mp hm])
    · exact stepAwaitCategory_good _ _ _ h2 hseen2 hexit'.1
    · exact stepAwaitAmount_good _ _ _ h2 hseen2
    · exact stepAwaitNotes_good _ _ _ _ h2 hseen2
    · exact stepNextAction_good _ _ _ _ _ h2 hseen2 (by simp [upd, beq_iff_eq.mp hx])
    · have hstate : (⟨upd sys.userState ev.sender
          (some ((sys.userState ev.sender).getD "MAIN_MENU")),
          sys.userTemp,
          fun b => if b = ev.sender then true else sys.seenWelcome b,
          sys.ledger⟩ : Sys).userState ev.sender
          = some ((sys.userState ev.sender).getD "MAIN_MENU") := by simp [upd]
      have htn : (⟨upd sys.userState ev.sender
          (some ((sys.userState ev.sender).getD "MAIN_MENU")),
          sys.userTemp,
          fun b => if b = ev.sender then true else sys.seenWelcome b,
          sys.ledger⟩ : Sys).userTemp ev.sender = none := by
        refine temp_none_of_state _ ev.sender h2 ?_ ?_ <;> rw [hstate] <;>
          intro hh <;> simp only [Option.some.injEq] at hh
        · exact haa (by simp [hh])
        · exact hn (by simp [hh])
      exact GoodSys_setState _ ev.sender "MAIN_MENU" h2 hseen2 htn (by simp)

/-- The fresh process satisfies the invariant. -/
theorem GoodSys_init : GoodSys init := by
  refine ⟨fun a => ⟨by simp [init, StateOK], by simp [init, StateOK]⟩,
    fun a => by simp [init], fun a d hd => by simp [init] at hd,
    fun r hr => by simp [init] at hr⟩

/-- Every reachable process state satisfies the invariant. -/
theorem GoodSys_run (start : Sys) (evs : List Event) (h : GoodSys start) :
    GoodSys (run start evs).1 := by
  induction evs generalizing start with
  | nil => exact h
  | cons e rest ih =>
    unfold run
    exact ih (handle start e).1 (GoodSys_handle start e h)

/-- Every reachable process state satisfies the invariant. -/
theorem GoodSys_reachable (sys : Sys) (h : Reachable sys) : GoodSys sys := by
  obtain ⟨evs, hevs⟩ := h
  rw [← hevs]
  exact GoodSys_run init evs GoodSys_init

theorem run_snoc (start : Sys) (evs : List Event) (e : Event) :
    (run start (evs ++ [e])).1 = (handle (run start evs).1 e).1 := by
  induction evs generalizing start with
  | nil => rfl
  | cons f rest ih =>
    unfold run
    exact ih (handle start f).1

/-- C5: in every reachable configuration a sender holds a draft exactly
when its state is `AWAIT_AMOUNT` or `AWAIT_NOTES` (the draft always
carries a category by construction, and an amount from `AWAIT_NOTES`
on), and handling any message from a reachable configuration preserves
this. -/
theorem C5_draft_invariant :
    (∀ sys, Reachable sys → ∀ a, StateOK sys a) ∧
    (∀ sys ev, Reachable sys → ∀ a, StateOK (handle sys ev).1 a) := by
  constructor
  · intro sys h a
    exact (GoodSys_reachable sys h).1 a
  · intro sys ev h a
    obtain ⟨evs, hevs⟩ := h
    have : Reachable (handle sys ev).1 := by
      refine ⟨evs ++ [ev], ?_⟩
      rw [run_snoc, hevs]
    exact (GoodSys_reachable _ this).1 a

/-- Witness for C5: the fresh process, and one step of the add-expense
flow from it. -/
theorem C5_witness :
    (Reachable init ∧ StateOK init "A") ∧
    StateOK (handle init ⟨"A", "1", ⟨2024, 1, 1, 10, 0, 0⟩, []⟩).1 "A" :=
  ⟨⟨⟨[], rfl⟩, C5_draft_invariant.1 init ⟨[], rfl⟩ "A"⟩,
   C5_draft_invariant.2 init ⟨"A", "1", ⟨2024, 1, 1, 10, 0, 0⟩, []⟩
     ⟨[], rfl⟩ "A"⟩

/-- C10: the catalog does map key `"5"` to `"Vendor Payments"`, yet in
every reachable process state no appended row carries that category —
the global exit check intercepts `"5"` before `AWAIT_CATEGORY` ever
sees it. -/
theorem C10_vendor_unreachable :
    catLookup "5" = some "Vendor Payments" ∧
    ∀ sys, Reachable sys →
      ∀ row ∈ sys.ledger, row.category ≠ "Vendor Payments" := by
  refine ⟨by decide, ?_⟩
  intro sys h row hr hh
  have hmem := (GoodSys_reachable sys h).2.2.2 row hr
  rw [hh] at hmem
  exact absurd hmem (by decide)

/-- Witness for C10 on a full add-expense trace that actually appends
a row. -/
theorem C10_witness :
    Reachable (run init
      [⟨"A", "1", ⟨2024, 1, 1, 10, 0, 0⟩, []⟩,
       ⟨"A", "2", ⟨2024, 1, 1, 10, 1, 0⟩, []⟩,
       ⟨"A", "15.50", ⟨2024, 1, 1, 10, 2, 0⟩, []⟩,
       ⟨"A", "-", ⟨2024, 1, 1, 10, 3, 0⟩, []⟩]).1 ∧
    ∀ row ∈ (run init
      [⟨"A", "1", ⟨2024, 1, 1, 10, 0, 0⟩, []⟩,
       ⟨"A", "2", ⟨2024, 1, 1, 10, 1, 0⟩, []⟩,
       ⟨"A", "15.50", ⟨2024, 1, 1, 10, 2, 0⟩, []⟩,
       ⟨"A", "-", ⟨2024, 1, 1, 10, 3, 0⟩, []⟩]).1.ledger,
      row.category ≠ "Vendor Payments" :=
  ⟨⟨_, rfl⟩, C10_vendor_unreachable.2 _ ⟨_, rfl⟩⟩

theorem stepAwaitNotes_ledger (sys : Sys) (sender message : String) (now : DT) :
    (stepAwaitNotes sys sender message now).1.ledger = sys.ledger ∨
    ∃ d a, sys.userTemp sender = some d ∧ d.amount = some a ∧
      (stepAwaitNotes sys sender message now).1.ledger =
        sys.ledger ++ [save_expense now sender d.category a
          (if message == "-" then "" else message)] := by
  unfold stepAwaitNotes
  dsimp only
  split
  · left; rfl
  · rename_i d ht
    split
    · left; rfl
    · rename_i a ha
      right
      exact ⟨d, a, ht, ha, rfl⟩

/-- One request either leaves the ledger alone or appends a single row
stamped with the request's clock. -/
theorem handle_ledger_ts (sys : Sys) (ev : Event) :
    (handle sys ev).1.ledger = sys.ledger ∨
    ∃ row, (handle sys ev).1.ledger = sys.ledger ++ [row] ∧
      row.timestamp = fmtTimestamp ev.now := by
  rw [handle_unfold]
  split_ifs with hexit
  · left; rfl
  · unfold dispatch
    split_ifs with hm hc haa hn hx
    · left; exact stepMainMenu_ledger _ _ _ _ _ _
    · left; exact stepAwaitCategory_ledger _ _ _
    · left; exact stepAwaitAmount_ledger _ _ _
    · rcases stepAwaitNotes_ledger _ ev.sender (pyStrip ev.body) ev.now with
        hl | ⟨d, a, ht, ha, hl⟩
      · left; exact hl
      · right; exact ⟨_, hl, rfl⟩
    · left; exact stepNextAction_ledger _ _ _ _ _
    · left; rfl

theorem run_ledger_ts (start : Sys) (evs : List Event)
    (hval : ∀ e ∈ evs, e.now.Valid)
    (hstart : ∀ row ∈ start.ledger, tsFormat row.timestamp = true) :
    ∀ row ∈ (run start evs).1.ledger, tsFormat row.timestamp = true := by
  induction evs generalizing start with
  | nil => exact hstart
  | cons e rest ih =>
    unfold run
    refine ih (handle start e).1
      (fun x hx => hval x (List.mem_cons_of_mem e hx)) ?_
    intro row hr
    rcases handle_ledger_ts start e with hl | ⟨r2, hl, hts⟩
    · exact hstart row (by rw [hl] at hr; exact hr)
    · rw [hl] at hr
      rcases List.mem_append.mp hr with hr | hr
      · exact hstart row hr
      · rw [List.mem_singleton.mp hr, hts]
        exact tsFormat_fmtTimestamp e.now (hval e (List.mem_cons_self e rest))

/-- C8: every row the engine appends (in any run under plausible
clocks) has a category that is a label of the Category Catalog and
non-empty, and a timestamp in `YYYY-MM-DD HH:MM` shape; its amount is
a number by construction (`LedgerRow.amount : ℚ` is the parsed float
passed to `append_row`). -/
theorem C8_row_wellformed (evs : List Event)
    (hval : ∀ e ∈ evs, e.now.Valid) :
    ∀ row ∈ (run init evs).1.ledger,
      row.category ∈ categoryLabels ∧ row.category ≠ "" ∧
      tsFormat row.timestamp = true := by
  intro row hr
  have hg := GoodSys_run init evs GoodSys_init
  have hc := hg.2.2.2 row hr
  have hsub : ∀ l ∈ selectableLabels, l ∈ categoryLabels ∧ l ≠ "" := by decide
  have hts := run_ledger_ts init evs hval
    (by intro r hrr; simp [init] at hrr) row hr
  exact ⟨(hsub _ hc).1, (hsub _ hc).2, hts⟩

/-- Witness for C8 on the add-expense trace. -/
theorem C8_witness :
    (∀ e ∈ [(⟨"A", "1", ⟨2024, 1, 1, 10, 0, 0⟩, []⟩ : Event),
       ⟨"A", "2", ⟨2024, 1, 1, 10, 1, 0⟩, []⟩,
       ⟨"A", "15.50", ⟨2024, 1, 1, 10, 2, 0⟩, []⟩,
       ⟨"A", "-", ⟨2024, 1, 1, 10, 3, 0⟩, []⟩], e.now.Valid) ∧
    ∀ row ∈ (run init
      [⟨"A", "1", ⟨2024, 1, 1, 10, 0, 0⟩, []⟩,
       ⟨"A", "2", ⟨2024, 1, 1, 10, 1, 0⟩, []⟩,
       ⟨"A", "15.50", ⟨2024, 1, 1, 10, 2, 0⟩, []⟩,
       ⟨"A", "-", ⟨2024, 1, 1, 10, 3, 0⟩, []⟩]).1.ledger,
      row.category ∈ categoryLabels ∧ row.category ≠ "" ∧
      tsFormat row.timestamp = true :=
  ⟨by decide, C8_row_wellformed _ (by decide)⟩

/-! ### The welcome banner appears in no other reply

A reply built as `a ++ digits ++ b` can only contain the banner if `a`
or `b` does, because no banner character is a digit, `-` or `/`. -/

theorem patSplit (p a b : List Char) (h : p <:+: a ++ b) :
    p <:+: a ∨ p <:+: b ∨
      ∃ x y, x ++ y = p ∧ x ≠ [] ∧ y ≠ [] ∧ x <:+ a ∧ y <+: b := by
  obtain ⟨s, t, hst⟩ := h
  rcases List.append_eq_append_iff.mp hst with ⟨a', ha1, ha2⟩ | ⟨c', hc1, hc2⟩
  · left
    exact ⟨s, a', ha1.symm⟩
  · rcases List.append_eq_append_iff.mp hc1 with ⟨u, hu1, hu2⟩ | ⟨v, hv1, hv2⟩
    · rcases eq_or_ne u [] with rfl | hune
      · right; left
        simp only [List.nil_append] at hu2
        refine ⟨[], t, ?_⟩
        rw [hc2, hu2]
        simp
      · rcases eq_or_ne c' [] with rfl | hcne
        · left
          rw [List.append_nil] at hu2
          refine ⟨s, [], ?_⟩
          rw [hu1, hu2]
          simp
        · right; right
          refine ⟨u, c', hu2.symm, hune, hcne, ⟨s, hu1.symm⟩, ⟨t, hc2.symm⟩⟩
    · right; left
      refine ⟨v, t, ?_⟩
      rw [hc2, hv2]

theorem patSplitTriple (p m a b : List Char)
    (hpchar : ∀ c ∈ p, numChar c = false) (hp : p ≠ [])
    (hm : ∀ c ∈ m, numChar c = true) (hmne : m ≠ [])
    (h : p <:+: a ++ (m ++ b)) : p <:+: a ∨ p <:+: b := by
  rcases patSplit p a (m ++ b) h with h1 | h1 | ⟨x, y, hxy, hx, hy, hxa, hyb⟩
  · exact Or.inl h1
  · rcases patSplit p m b h1 with h2 | h2 | ⟨x, y, hxy, hx, hy, hxm, hyb⟩
    · exfalso
      obtain ⟨c, hc⟩ := List.exists_mem_of_ne_nil p hp
      have := hm c (h2.subset hc)
      rw [hpchar c hc] at this
      exact Bool.false_ne_true this
    · exact Or.inr h2
    · exfalso
      obtain ⟨c, hc⟩ := List.exists_mem_of_ne_nil x hx
      have hcp : c ∈ p := by
        rw [← hxy]; exact List.mem_append_left _ hc
      have := hm c (hxm.subset hc)
      rw [hpchar c hcp] at this
      exact Bool.false_ne_true this
  · exfalso
    cases y with
    | nil => exact hy rfl
    | cons c y' =>
      cases m with
      | nil => exact hmne rfl
      | cons cm m' =>
        have hcc : c = cm := (List.cons_prefix_cons.mp hyb).1
        have hcp : c ∈ p := by
          rw [← hxy]
          exact List.mem_append_right _ (List.mem_cons_self c y')
        have := hm cm (List.mem_cons_self cm m')
        rw [← hcc, hpchar c hcp] at this
        exact Bool.false_ne_true this

theorem natDigs_chars (n : ℕ) : ∀ c ∈ natDigs n, numChar c = true := by
  induction n using Nat.strong_induction_on with
  | _ n ih =>
    by_cases h : n < 10
    · rw [natDigs_lt n h]
      intro c hc
      rw [List.mem_singleton.mp hc]
      simp [numChar, digitChar_isDigit n h]
    · rw [natDigs_ge n h]
      intro c hc
      rcases List.mem_append.mp hc with hc | hc
      · exact ih (n / 10) (Nat.div_lt_self (by omega) (by omega)) c hc
      · rw [List.mem_singleton.mp hc]
        simp [numChar, digitChar_isDigit (n % 10) (Nat.mod_lt n (by omega))]

theorem natDigs_ne_nil (n : ℕ) : natDigs n ≠ [] := by
  by_cases h : n < 10
  · rw [natDigs_lt n h]; simp
  · rw [natDigs_ge n h]; simp

theorem renderNum_chars (q : ℚ) : ∀ c ∈ (renderNum q).data, numChar c = true := by
  unfold renderNum renderInt renderNat
  split_ifs <;> intro c hc <;>
    simp only [String.data_append] at hc <;>
    repeat'
      first
      | (rcases List.mem_append.mp hc with hc | hc)
      | (rcases List.mem_cons.mp hc with hc | hc)
      | (exact natDigs_chars _ c hc)
      | (rw [hc]; decide)
      | (simp at hc)

theorem renderNum_ne_nil (q : ℚ) : (renderNum q).data ≠ [] := by
  unfold renderNum renderInt renderNat
  split_ifs <;> simp [String.data_append, natDigs_ne_nil]

/-- Splicing a number into banner-free text cannot create the banner. -/
theorem noBanner_mid (a m b : List Char)
    (hm : ∀ c ∈ m, numChar c = true) (hmne : m ≠ [])
    (ha : ¬welcomeBanner.data <:+: a) (hb : ¬welcomeBanner.data <:+: b) :
    ¬welcomeBanner.data <:+: a ++ (m ++ b) := by
  intro h
  have hpchar : ∀ c ∈ welcomeBanner.data, numChar c = false := by decide
  have hpne : welcomeBanner.data ≠ [] := by decide
  rcases patSplitTriple _ _ _ _ hpchar hpne hm hmne h with h | h
  · exact ha h
  · exact hb h

set_option maxRecDepth 40000 in
theorem banner_in_welcome_menu : containsBanner (main_menu true) := by decide

set_option maxRecDepth 40000 in
theorem noBanner_main_menu : ¬containsBanner (main_menu false) := by decide

set_option maxRecDepth 40000 in
theorem noBanner_category_menu : ¬containsBanner category_menu := by decide

set_option maxRecDepth 40000 in
theorem noBanner_goodbye : ¬containsBanner goodbyeMsg := by decide

set_option maxRecDepth 40000 in
theorem noBanner_invalidAmount : ¬containsBanner invalidAmountMsg := by decide

set_option maxRecDepth 40000 in
theorem noBanner_notesPrompt : ¬containsBanner notesPromptMsg := by decide

set_option maxRecDepth 40000 in
theorem noBanner_invalidChoice :
    ¬containsBanner ("Invalid choice. What would you like to do next?\n"
      ++ "1. Add Another Expense\n"
      ++ "2. View Today Total\n"
      ++ "3. Main Menu\n"
      ++ "5. Exit") := by decide

set_option maxRecDepth 40000 in
theorem noBanner_prompt :
    ∀ kv ∈ categories,
      ¬containsBanner ("Enter the amount spent on " ++ kv.2
        ++ " (or type \x27Exit\x27 to cancel):") := by decide

set_option maxRecDepth 40000 in
theorem noBanner_confirm_tail :
    ∀ l ∈ selectableLabels,
      ¬welcomeBanner.data <:+: (" on " ++ l ++ ".\n\n"
        ++ "What would you like to do next:\n"
        ++ "1. Add Another Expense\n"
        ++ "2. View Today Total\n"
        ++ "3. Main Menu\n"
        ++ "5. Exit").data := by decide

/-- Totals replies never contain the banner. -/
theorem noBanner_total (pre : String) (hpre : ¬containsBanner pre) (t : ℚ) :
    ¬containsBanner (pre ++ renderNum t ++ "\n\n" ++ main_menu false) := by
  intro h
  unfold containsBanner at h hpre
  rw [show (pre ++ renderNum t ++ "\n\n" ++ main_menu false).data
      = pre.data ++ ((renderNum t).data ++ ("\n\n" ++ main_menu false).data) by
    simp [String.data_append]] at h
  refine noBanner_mid _ _ _ (renderNum_chars t) (renderNum_ne_nil t) hpre ?_ h
  have : ¬containsBanner ("\n\n" ++ main_menu false) := by
    have := noBanner_main_menu
    unfold containsBanner at this ⊢
    intro hh
    rw [String.data_append] at hh
    rcases patSplit _ _ _ hh with h1 | h1 | ⟨x, y, hxy, hx, hy, hxa, hyb⟩
    · revert h1; decide
    · exact this h1
    · have hx2 : x ∈ ["\n", "\n\n", ("" : String)].map String.data ∨
          x.length ≤ 2 := by
        right
        have := hxa.length_le
        simpa using this
      obtain ⟨c, hc⟩ := List.exists_mem_of_ne_nil x hx
      have hcb : c ∈ welcomeBanner.data := by
        rw [← hxy]; exact List.mem_append_left _ hc
      have hcn : c = '\n' := by
        have := hxa.subset hc
        simpa using this
      revert hcb
      rw [hcn]
      decide
  exact this

/-- The expense-saved confirmation never contains the banner when the
draft category is selectable. -/
theorem noBanner_confirm (amt : ℚ) (cat : String)
    (hcat : cat ∈ selectableLabels) :
    ¬containsBanner ("Expense saved.\nYou spent " ++ renderNum amt ++ " on "
      ++ cat ++ ".\n\n"
      ++ "What would you like to do next:\n"
      ++ "1. Add Another Expense\n"
      ++ "2. View Today Total\n"
      ++ "3. Main Menu\n"
      ++ "5. Exit") := by
  intro h
  unfold containsBanner at h
  rw [show ("Expense saved.\nYou spent " ++ renderNum amt ++ " on "
      ++ cat ++ ".\n\n"
      ++ "What would you like to do next:\n"
      ++ "1. Add Another Expense\n"
      ++ "2. View Today Total\n"
      ++ "3. Main Menu\n"
      ++ "5. Exit").data
      = "Expense saved.\nYou spent ".data ++ ((renderNum amt).data
        ++ (" on " ++ cat ++ ".\n\n"
          ++ "What would you like to do next:\n"
          ++ "1. Add Another Expense\n"
          ++ "2. View Today Total\n"
          ++ "3. Main Menu\n"
          ++ "5. Exit").data) by simp [String.data_append]] at h
  refine noBanner_mid _ _ _ (renderNum_chars amt) (renderNum_ne_nil amt)
    (by decide) (noBanner_confirm_tail cat hcat) h

theorem stepMainMenu_banner (sys : Sys) (sender message : String) (w : Bool)
    (now : DT) (rows : List RawRow) (r : String)
    (hok : (stepMainMenu sys sender message w now rows).2 = .ok r) :
    containsBanner r ↔
      (w = true ∧ message ≠ "1" ∧ message ≠ "2" ∧
       message ≠ "3" ∧ message ≠ "4") := by
  unfold stepMainMenu at hok
  split_ifs at hok with h1 h2 h3 h4
  · simp only [Except.ok.injEq] at hok
    subst hok
    exact iff_of_false noBanner_category_menu (by simp [beq_iff_eq.mp h1])
  · split at hok
    · simp at hok
    · simp only [Except.ok.injEq] at hok
      subst hok
      exact iff_of_false (noBanner_total _ (by decide) _)
        (by simp [beq_iff_eq.mp h2])
  · split at hok
    · simp at hok
    · simp only [Except.ok.injEq] at hok
      subst hok
      exact iff_of_false (noBanner_total _ (by decide) _)
        (by simp [beq_iff_eq.mp h3])
  · split at hok
    · simp at hok
    · simp only [Except.ok.injEq] at hok
      subst hok
      exact iff_of_false (noBanner_total _ (by decide) _)
        (by simp [beq_iff_eq.mp h4])
  · simp only [Except.ok.injEq] at hok
    subst hok
    cases w with
    | true =>
      refine iff_of_true banner_in_welcome_menu
        ⟨rfl, ?_, ?_, ?_, ?_⟩ <;> intro hh <;> subst hh
      · exact h1 rfl
      · exact h2 rfl
      · exact h3 rfl
      · exact h4 rfl
    | false => exact iff_of_false noBanner_main_menu (by simp)

theorem stepAwaitCategory_banner (sys : Sys) (sender message : String)
    (r : String) (hok : (stepAwaitCategory sys sender message).2 = .ok r) :
    ¬containsBanner r := by
  unfold stepAwaitCategory at hok
  split at hok
  · simp only [Except.ok.injEq] at hok
    subst hok
    exact noBanner_category_menu
  · rename_i label hc
    simp only [Except.ok.injEq] at hok
    subst hok
    unfold catLookup at hc
    cases hf : categories.find? (fun kv => kv.1 == message) with
    | none => rw [hf] at hc; simp at hc
    | some kv =>
      rw [hf] at hc
      simp at hc
      have hmem := List.mem_of_find?_eq_some hf
      rw [← hc]
      exact noBanner_prompt kv hmem

theorem stepAwaitAmount_banner (sys : Sys) (sender message : String)
    (r : String) (hok : (stepAwaitAmount sys sender message).2 = .ok r) :
    ¬containsBanner r := by
  unfold stepAwaitAmount at hok
  split at hok
  · simp only [Except.ok.injEq] at hok
    subst hok
    exact noBanner_invalidAmount
  · split at hok
    · simp at hok
    · simp only [Except.ok.injEq] at hok
      subst hok
      exact noBanner_notesPrompt

theorem stepAwaitNotes_banner (sys : Sys) (sender message : String) (now : DT)
    (r : String)
    (hcat : ∀ d, sys.userTemp sender = some d →
      d.category ∈ selectableLabels)
    (hok : (stepAwaitNotes sys sender message now).2 = .ok r) :
    ¬containsBanner r := by
  unfold stepAwaitNotes at hok
  dsimp only at hok
  split at hok
  · simp at hok
  · rename_i d ht
    split at hok
    · simp at hok
    · rename_i amount ha
      simp only [Except.ok.injEq] at hok
      subst hok
      exact noBanner_confirm amount d.category (hcat d ht)

theorem stepNextAction_banner (sys : Sys) (sender message : String) (now : DT)
    (rows : List RawRow) (r : String)
    (hok : (stepNextAction sys sender message now rows).2 = .ok r) :
    ¬containsBanner r := by
  unfold stepNextAction at hok
  split_ifs at hok with h1 h2 h3 h4
  · simp only [Except.ok.injEq] at hok
    subst hok
    exact noBanner_category_menu
  · split at hok
    · simp at hok
    · simp only [Except.ok.injEq] at hok
      subst hok
      exact noBanner_total _ (by decide) _
  · simp only [Except.ok.injEq] at hok
    subst hok
    exact noBanner_main_menu
  · simp only [Except.ok.injEq] at hok
    subst hok
    exact noBanner_goodbye
  · simp only [Except.ok.injEq] at hok
    subst hok
    exact noBanner_invalidChoice

theorem dispatch_seen (sys : Sys) (sender message : String) (w : Bool)
    (state : String) (now : DT) (rows : List RawRow) :
    (dispatch sys sender message w state now rows).1.seenWelcome
      = sys.seenWelcome := by
  have hne : sender ++ "!" ≠ sender := by
    intro hh
    have := congrArg String.length hh
    simp [String.length_append] at this
    exact absurd this (by decide)
  exact (dispatch_frame sys sender message w state now rows (sender ++ "!") hne).2.2

/-- After handling any message, the sender is marked welcomed. -/
theorem handle_seen_self (sys : Sys) (ev : Event) :
    (handle sys ev).1.seenWelcome ev.sender = true := by
  rw [handle_unfold]
  split_ifs with hexit
  · simp
  · rw [dispatch_seen]
    simp

/-- A sender whose initialized state is not `MAIN_MENU` has a stored
state entry, hence has already been welcomed. -/
theorem seen_true_of_not_main (sys : Sys) (a : String) (hg : GoodSys sys)
    (h : ¬((sys.userState a).getD "MAIN_MENU" == "MAIN_MENU") = true) :
    sys.seenWelcome a = true := by
  cases hs : sys.userState a with
  | none => exact absurd (by rw [hs]; rfl) h
  | some v => exact (hg.2.1 a).mp (by rw [hs]; rfl)

/-- Which successful replies contain the welcome banner: exactly the
first-contact replies (welcome flag still unset) to a message that
matches no main-menu option and is not the exit shortcut. -/
theorem handle_banner (sys : Sys) (ev : Event) (r : String) (hg : GoodSys sys)
    (hok : (handle sys ev).2 = .ok r) :
    containsBanner r ↔
      (sys.seenWelcome ev.sender = false ∧
       pyStrip ev.body ≠ "1" ∧ pyStrip ev.body ≠ "2" ∧
       pyStrip ev.body ≠ "3" ∧ pyStrip ev.body ≠ "4" ∧
       lower (pyStrip ev.body) ≠ "5" ∧ lower (pyStrip ev.body) ≠ "exit") := by
  rw [handle_unfold] at hok
  split_ifs at hok with hexit
  · simp only [Except.ok.injEq] at hok
    subst hok
    refine iff_of_false noBanner_goodbye ?_
    rintro ⟨-, -, -, -, -, h5, hx⟩
    rcases Bool.or_eq_true_iff.mp hexit with hh | hh
    · exact h5 (beq_iff_eq.mp hh)
    · exact hx (beq_iff_eq.mp hh)
  · have hnex5 : lower (pyStrip ev.body) ≠ "5" := by
      intro hh; exact hexit (by simp [hh])
    have hnexx : lower (pyStrip ev.body) ≠ "exit" := by
      intro hh; exact hexit (by simp [hh])
    unfold dispatch at hok
    split_ifs at hok with hm hc haa hn hx
    · rw [stepMainMenu_banner _ _ _ _ _ _ r hok]
      constructor
      · rintro ⟨hw, hm1, hm2, hm3, hm4⟩
        refine ⟨by simpa using hw, hm1, hm2, hm3, hm4, hnex5, hnexx⟩
      · rintro ⟨hw, hm1, hm2, hm3, hm4, -, -⟩
        exact ⟨by simp [hw], hm1, hm2, hm3, hm4⟩
    · refine iff_of_false (stepAwaitCategory_banner _ _ _ r hok) ?_
      rintro ⟨hseen, -⟩
      rw [seen_true_of_not_main sys ev.sender hg hm] at hseen
      cases hseen
    · refine iff_of_false (stepAwaitAmount_banner _ _ _ r hok) ?_
      rintro ⟨hseen, -⟩
      rw [seen_true_of_not_main sys ev.sender hg hm] at hseen
      cases hseen
    · refine iff_of_false (stepAwaitNotes_banner _ _ _ _ r ?_ hok) ?_
      · intro d hd
        exact (GoodSys_sys2 sys ev.sender hg).2.2.1 ev.sender d hd
      · rintro ⟨hseen, -⟩
        rw [seen_true_of_not_main sys ev.sender hg hm] at hseen
        cases hseen
    · refine iff_of_false (stepNextAction_banner _ _ _ _ _ r hok) ?_
      rintro ⟨hseen, -⟩
      rw [seen_true_of_not_main sys ev.sender hg hm] at hseen
      cases hseen
    · simp only [Except.ok.injEq] at hok
      subst hok
      refine iff_of_false noBanner_main_menu ?_
      rintro ⟨hseen, -⟩
      rw [seen_true_of_not_main sys ev.sender hg hm] at hseen
      cases hseen

/-- Counterexample to C3 as stated: the very first message of sender
`A` is `"1"`; the reply is the category menu and contains no welcome
banner — so the first reply does not always carry the banner. -/
theorem C3_welcome_cex :
    (run init [⟨"A", "1", ⟨2024, 1, 1, 10, 0, 0⟩, []⟩]).2
      = [.ok category_menu] ∧ ¬containsBanner category_menu :=
  ⟨rfl, noBanner_category_menu⟩

/-- C3 (amended): a successful reply contains the welcome banner iff
the sender had not been seen before this message and the (trimmed)
message matches no main-menu option (`"1"`–`"4"`) and is not the exit
shortcut; and every handled message marks its sender seen, so the
banner can appear at most once per sender — only in the reply to the
sender's first message. -/
theorem C3_welcome_amended :
    (∀ (sys : Sys) (ev : Event) (r : String), Reachable sys →
      (handle sys ev).2 = .ok r →
      (containsBanner r ↔
        (sys.seenWelcome ev.sender = false ∧
         pyStrip ev.body ≠ "1" ∧ pyStrip ev.body ≠ "2" ∧
         pyStrip ev.body ≠ "3" ∧ pyStrip ev.body ≠ "4" ∧
         lower (pyStrip ev.body) ≠ "5" ∧
         lower (pyStrip ev.body) ≠ "exit"))) ∧
    (∀ (sys : Sys) (ev : Event),
      (handle sys ev).1.seenWelcome ev.sender = true) :=
  ⟨fun sys ev r h hok => handle_banner sys ev r (GoodSys_reachable sys h) hok,
   handle_seen_self⟩

/-- Witness for the amended C3: sender `A`'s first message `"hello"`
gets the banner, and `A` is marked seen afterwards. -/
theorem C3_witness :
    (Reachable init ∧
     (handle init ⟨"A", "hello", ⟨2024, 1, 1, 10, 0, 0⟩, []⟩).2
       = .ok (main_menu true)) ∧
    ((containsBanner (main_menu true) ↔
       (init.seenWelcome "A" = false ∧
        pyStrip "hello" ≠ "1" ∧ pyStrip "hello" ≠ "2" ∧
        pyStrip "hello" ≠ "3" ∧ pyStrip "hello" ≠ "4" ∧
        lower (pyStrip "hello") ≠ "5" ∧
        lower (pyStrip "hello") ≠ "exit")) ∧
     (handle init ⟨"A", "hello", ⟨2024, 1, 1, 10, 0, 0⟩, []⟩).1.seenWelcome "A"
       = true) :=
  ⟨⟨⟨[], rfl⟩, rfl⟩,
   ⟨C3_welcome_amended.1 init ⟨"A", "hello", ⟨2024, 1, 1, 10, 0, 0⟩, []⟩
      (main_menu true) ⟨[], rfl⟩ rfl,
    C3_welcome_amended.2 init ⟨"A", "hello", ⟨2024, 1, 1, 10, 0, 0⟩, []⟩⟩⟩
